import Mathlib

/-!
Verification of the automated grading engine of the TDD-Learning repository
(`docs/exercises/automated-testing/test_runner.py`).

The Python module is shallowly embedded: the `ast` node shapes the analyzers
inspect are an inductive type, the `ast.NodeVisitor` traversals are structural
recursions threading the visitor state, and the fallible runtime steps
(importing a module, invoking a test predicate) are represented by the
observable outcome of the underlying Python action, classified by the
exception hierarchy the source's `except` clauses distinguish.
-/

namespace TestRunner

/-! ## Python AST fragment

The analyzers in `CodeAnalyzer` only distinguish three statement shapes:
`ast.ClassDef` (name, bases, body), `ast.FunctionDef` (name, decorator_list,
body), and everything else (through which `generic_visit` descends without
recording anything).  A decorator is only inspected for being an `ast.Name`
with a given identifier, so decorators are embedded as that one distinction.
A parsed module (`ast.parse` result) is its list of top-level statements. -/

inductive PyDec where
  | nameDec (id : String)
  | otherDec
deriving DecidableEq

inductive PyNode where
  | classDef (name : String) (bases : List String) (body : List PyNode)
  | funcDef (name : String) (decorators : List PyDec) (body : List PyNode)
  | other (body : List PyNode)

/-- ASCII lowercasing of one character, as `str.lower` acts on the ASCII
identifiers these analyzers compare (`Char.toLower`-style arithmetic kept
kernel-reducible). -/
def lowerChar (c : Char) : Char :=
  if 65 ≤ c.toNat ∧ c.toNat ≤ 90 then Char.ofNat (c.toNat + 32) else c

/-- `str.lower()` on identifier strings. -/
def strLower (s : String) : String := ⟨s.data.map lowerChar⟩

/-- Python's substring containment `needle in hay`. -/
def inStr (needle hay : String) : Bool :=
  hay.data.tails.any (fun t => needle.data.isPrefixOf t)

/-- Python's `s.startswith(p)`. -/
def startsWithStr (p s : String) : Bool := p.data.isPrefixOf s.data

/-! ## CodeAnalyzer.find_classes

`ClassVisitor.visit_ClassDef` appends the class name and then calls
`generic_visit`, so names are collected in depth-first pre-order, nested
classes included. -/

mutual

def classesVisit : PyNode → List String
  | .classDef n _ body => n :: classesVisitList body
  | .funcDef _ _ body => classesVisitList body
  | .other body => classesVisitList body

def classesVisitList : List PyNode → List String
  | [] => []
  | n :: ns => classesVisit n ++ classesVisitList ns

end

def find_classes (tree : List PyNode) : List String := classesVisitList tree

/-! ## CodeAnalyzer.find_methods

`MethodVisitor` tracks `current_class` with a save/restore around each
`ClassDef` body; `visit_FunctionDef` records the name when no target class is
given or the current class equals the target, then descends into the function
body with the class context unchanged. -/

mutual

def methodsVisit (target : Option String) : Option String → PyNode → List String
  | _, .classDef n _ body => methodsVisitList target (some n) body
  | cc, .funcDef n _ body =>
      (if target = none ∨ cc = target then [n] else []) ++ methodsVisitList target cc body
  | cc, .other body => methodsVisitList target cc body

def methodsVisitList (target : Option String) : Option String → List PyNode → List String
  | _, [] => []
  | cc, n :: ns => methodsVisit target cc n ++ methodsVisitList target cc ns

end

def find_methods (tree : List PyNode) (class_name : Option String := none) : List String :=
  methodsVisitList class_name none tree

/-! ## CodeAnalyzer.find_design_patterns -/

/-- The facts `PatternVisitor` accumulates over one traversal. -/
structure PatternFacts where
  class_names : List String
  method_names : List String
  has_abstract_methods : Bool
  has_inheritance : Bool
deriving DecidableEq

/-- The decorator scan inside `visit_ClassDef`: only `ast.FunctionDef` items
directly in the class body are examined, and only `ast.Name` decorators with
id `abstractmethod` count. -/
def directAbstract (body : List PyNode) : Bool :=
  body.any fun n =>
    match n with
    | .funcDef _ decs _ => decs.any fun d =>
        match d with
        | .nameDec i => i == "abstractmethod"
        | .otherDec => false
    | _ => false

mutual

def patternVisit : PatternFacts → PyNode → PatternFacts
  | st, .classDef n bases body =>
      patternVisitList
        { st with
          class_names := st.class_names ++ [strLower n]
          has_inheritance := st.has_inheritance || !bases.isEmpty
          has_abstract_methods := st.has_abstract_methods || directAbstract body }
        body
  | st, .funcDef n _ body =>
      patternVisitList { st with method_names := st.method_names ++ [strLower n] } body
  | st, .other body => patternVisitList st body

def patternVisitList : PatternFacts → List PyNode → PatternFacts
  | st, [] => st
  | st, n :: ns => patternVisitList (patternVisit st n) ns

end

/-- The seven pattern flags, keys of the returned dict. -/
structure Patterns where
  singleton : Bool
  factory : Bool
  strategy : Bool
  observer : Bool
  decorator : Bool
  command : Bool
  builder : Bool
deriving DecidableEq

/-- Detection rules applied to the collected facts: substring tests against
the space-joined lowered name lists, exactly as in the source. -/
def patternFlags (v : PatternFacts) : Patterns :=
  let cs := String.intercalate " " v.class_names
  let ms := String.intercalate " " v.method_names
  { singleton := inStr "singleton" cs || inStr "_instance" ms
    factory := inStr "factory" cs || inStr "create" ms || inStr "make" ms
    strategy := v.has_abstract_methods && v.has_inheritance && inStr "strategy" cs
    observer := inStr "observer" cs || inStr "notify" ms || inStr "subscribe" ms
    decorator := inStr "decorator" cs || inStr "wrap" ms
    command := inStr "command" cs && inStr "execute" ms
    builder := inStr "builder" cs || inStr "build" ms }

def find_design_patterns (tree : List PyNode) : Patterns :=
  patternFlags (patternVisitList ⟨[], [], false, false⟩ tree)

/-- The pattern dict as an association list in its insertion order, as it is
embedded in suite reports. -/
def patternsAssoc (p : Patterns) : List (String × Bool) :=
  [("singleton", p.singleton), ("factory", p.factory), ("strategy", p.strategy),
   ("observer", p.observer), ("decorator", p.decorator), ("command", p.command),
   ("builder", p.builder)]

/-! ## CodeAnalyzer.check_tdd_compliance

`check_tdd_compliance` first calls `parse_code`; a parse failure is the `none`
input below (parsing of raw text itself is the Python `ast` parser, outside
the analyzers).  On success `TDDVisitor` walks every `FunctionDef` via
`generic_visit`, recording each function name in `function_order` and
classifying it as a test (`name.startswith("test_")` or `"test" in
name.lower()`) or, when the name does not start with `_`, an implementation
function. -/

/-- Visitor state of `TDDVisitor`, in field order of its `__init__`. -/
structure TDDFacts where
  test_functions : List String
  implementation_functions : List String
  function_order : List String
deriving DecidableEq

def isTestName (n : String) : Bool :=
  startsWithStr "test_" n || inStr "test" (strLower n)

/-- The `else` branch of `TDDVisitor.visit_FunctionDef`: counted as an
implementation function when not a test and not underscore-prefixed. -/
def isImplName (n : String) : Bool := !isTestName n && !startsWithStr "_" n

mutual

def tddVisit : TDDFacts → PyNode → TDDFacts
  | st, .funcDef n _ body =>
      tddVisitList
        { test_functions := st.test_functions ++ (if isTestName n then [n] else [])
          implementation_functions :=
            st.implementation_functions ++ (if isImplName n then [n] else [])
          function_order := st.function_order ++ [n] }
        body
  | st, .classDef _ _ body => tddVisitList st body
  | st, .other body => tddVisitList st body

def tddVisitList : TDDFacts → List PyNode → TDDFacts
  | st, [] => st
  | st, n :: ns => tddVisitList (tddVisit st n) ns

end

/-- `min(order.index(f) for f in fs if f in order)`; in both uses `fs` is
nonempty and contained in `order`, so the default branch is unreachable. -/
def firstIdxMin (order fs : List String) : Nat :=
  match (fs.filter (fun f => order.contains f)).map (fun f => order.indexOf f) with
  | [] => 0
  | i :: is => is.foldl min i

/-- The dict `check_tdd_compliance` returns.  `tests_before_implementation`
is an `Option` because the parse-failure dict does not carry that key. -/
structure TDDResult where
  has_tests : Bool
  test_count : Nat
  implementation_count : Nat
  tdd_compliant : Bool
  test_functions : List String
  implementation_functions : List String
  tests_before_implementation : Option Bool
  recommendations : List String
deriving DecidableEq

def check_tdd_compliance : Option (List PyNode) → TDDResult
  | none =>
      { has_tests := false
        test_count := 0
        implementation_count := 0
        tdd_compliant := false
        test_functions := []
        implementation_functions := []
        tests_before_implementation := none
        recommendations := ["Fix syntax errors in your code first"] }
  | some tree =>
      let v := tddVisitList ⟨[], [], []⟩ tree
      let has_tests := decide (0 < v.test_functions.length)
      let test_count := v.test_functions.length
      let implementation_count := v.implementation_functions.length
      let tbi :=
        if v.test_functions ≠ [] ∧ v.implementation_functions ≠ [] then
          decide (firstIdxMin v.function_order v.test_functions <
            firstIdxMin v.function_order v.implementation_functions)
        else true
      let recommendations :=
        if !has_tests then
          ["❌ No test functions found. TDD requires writing tests first!",
           "💡 Start with a test function like: def test_your_function():"]
        else if test_count < implementation_count then
          ["⚠️ You have " ++ toString test_count ++ " test(s) but " ++
             toString implementation_count ++ " implementation(s)",
           "💡 Consider adding more tests to cover all functionality"]
        else if !tbi then
          ["⚠️ Implementation functions appear before test functions",
           "💡 In TDD, tests should be written before implementation"]
        else
          ["✅ Good TDD structure! Tests are written before implementation"]
      { has_tests := has_tests
        test_count := test_count
        implementation_count := implementation_count
        tdd_compliant := has_tests && decide (0 < test_count) && tbi
        test_functions := v.test_functions
        implementation_functions := v.implementation_functions
        tests_before_implementation := some tbi
        recommendations := recommendations }

/-! ## SolutionImporter.import_solution

`import_solution` wraps `spec_from_file_location` / `module_from_spec` /
`exec_module` in `try ... except Exception`.  The runtime behaviour of that
load sequence is embedded as a `LoadEvent`: either every step succeeds, one of
the two `None` checks fires (each raises an `ImportError`, which the handler
catches), or some step raises.  A raise carries its place in Python's
exception hierarchy: `Exception`-derived, or system-exiting
(`BaseException`-only, i.e. `SystemExit` / `KeyboardInterrupt`), which an
`except Exception` clause does not catch. -/

inductive ExcKind where
  | ordinary
  | systemExiting
deriving DecidableEq

inductive LoadEvent where
  | ok
  | specNone
  | loaderNone
  | raises (kind : ExcKind) (tyName msg : String)
deriving DecidableEq

inductive ImportOutcome where
  | loaded
  | returnedNone
  | uncaught (tyName msg : String)
deriving DecidableEq

def import_solution : LoadEvent → ImportOutcome
  | .ok => .loaded
  | .specNone => .returnedNone
  | .loaderNone => .returnedNone
  | .raises .ordinary _ _ => .returnedNone
  | .raises .systemExiting tyName msg => .uncaught tyName msg

/-! ## Test framework core -/

inductive TestResult where
  | PASS
  | FAIL
  | ERROR
  | SKIP
deriving DecidableEq

/-- Observable behaviour of a test predicate applied to the loaded module, by
which handler of `run_test_case` it reaches: a normal return, an
`AssertionError` (with `str(e)`), or another `Exception` (with its type name
and message). -/
inductive TCOutcome where
  | ok
  | assertErr (msg : String)
  | exc (tyName : String) (msg : String)
deriving DecidableEq

/-- `TestCase` dataclass.  The callable field is embedded by its observable
outcome on the loaded module under test. -/
structure TestCase where
  name : String
  description : String
  test_function : TCOutcome
  module : String
  points : Int := 1
  timeout : Int := 30
  required_patterns : List String := []
  required_classes : List String := []
  required_methods : List String := []
deriving DecidableEq

/-- `TestExecutionResult` dataclass.  Scores are Python floats whose values
here are sums and one division of integers, represented exactly in `ℚ`;
`execution_time` is a wall-clock measurement and is not modelled. -/
structure TestExecutionResult where
  test_case : TestCase
  result : TestResult
  error_message : String := ""
  output : String := ""
  score : ℚ := 0
deriving DecidableEq

/-- `ModuleTestSuite` dataclass; its `max_points` field is overwritten by
`__post_init__` with the sum of the cases' points, so it is a derived value. -/
structure ModuleTestSuite where
  module_name : String
  test_cases : List TestCase := []
deriving DecidableEq

def ModuleTestSuite.max_points (s : ModuleTestSuite) : Int :=
  (s.test_cases.map (·.points)).sum

/-! ## TestRunner.run_test_case -/

def run_test_case (tc : TestCase) : TestExecutionResult :=
  match tc.test_function with
  | .ok => { test_case := tc, result := .PASS, score := (tc.points : ℚ) }
  | .assertErr m => { test_case := tc, result := .FAIL, error_message := m, score := 0 }
  | .exc ty m =>
      { test_case := tc, result := .ERROR, error_message := ty ++ ": " ++ m, score := 0 }

/-! ## TestRunner.run_test_suite

The returned dict: on import failure it has exactly the keys `module`,
`status`, `error`, `results`; on the completed path exactly `module`,
`status`, `total_score`, `max_score`, `percentage`, `results`,
`detected_patterns`, `found_classes`.  Optional fields stand for keys that
one of the two dict literals omits; `keys` below lists the keys present.
`import_ok` is whether `SolutionImporter.import_solution` returned a module,
and `tree?` is `parse_code` on the file's text (`none` on a syntax error,
in which case the conditional expressions supply `{}` and `[]`). -/

structure SuiteReport where
  module : String
  status : String
  error : Option String
  total_score : Option ℚ
  max_score : Option Int
  percentage : Option ℚ
  results : List TestExecutionResult
  detected_patterns : Option (List (String × Bool))
  found_classes : Option (List String)
deriving DecidableEq

def SuiteReport.keys (r : SuiteReport) : List String :=
  ["module", "status"]
    ++ (if r.error.isSome then ["error"] else [])
    ++ (if r.total_score.isSome then ["total_score"] else [])
    ++ (if r.max_score.isSome then ["max_score"] else [])
    ++ (if r.percentage.isSome then ["percentage"] else [])
    ++ ["results"]
    ++ (if r.detected_patterns.isSome then ["detected_patterns"] else [])
    ++ (if r.found_classes.isSome then ["found_classes"] else [])

def run_test_suite (suite : ModuleTestSuite) (import_ok : Bool)
    (tree? : Option (List PyNode)) : SuiteReport :=
  if !import_ok then
    { module := suite.module_name
      status := "error"
      error := some "Failed to import solution"
      total_score := none
      max_score := none
      percentage := none
      results := []
      detected_patterns := none
      found_classes := none }
  else
    let results := suite.test_cases.map run_test_case
    let total_score : ℚ := (results.map (·.score)).sum
    let percentage : ℚ :=
      if suite.max_points > 0 then (total_score / (suite.max_points : ℚ)) * 100 else 0
    { module := suite.module_name
      status := "completed"
      error := none
      total_score := some total_score
      max_score := some suite.max_points
      percentage := some percentage
      results := results
      detected_patterns :=
        some (match tree? with
              | some t => patternsAssoc (find_design_patterns t)
              | none => [])
      found_classes :=
        some (match tree? with
              | some t => find_classes t
              | none => []) }

/-! ## AutomatedTester.test_solution

The facade holds the registry `self.test_suites` (an insertion-ordered dict,
here an association list) and dispatches on file existence and the optional
suite name.  In the all-suites loop each `run_test_suite` call is wrapped in
`try ... except Exception`; the embedded `run_test_suite` is total, so that
handler has no corresponding event here. -/

inductive TSOutcome where
  | err (msg : String)
  | reports (rs : List (String × SuiteReport))
deriving DecidableEq

def lookupSuite (reg : List (String × ModuleTestSuite)) (n : String) :
    Option ModuleTestSuite :=
  (reg.find? (fun p => p.1 == n)).map (·.2)

def test_solution (solution_file : String) (file_exists : Bool)
    (suites : List (String × ModuleTestSuite)) (suite_name : Option String)
    (import_ok : Bool) (tree? : Option (List PyNode)) : TSOutcome :=
  if !file_exists then
    .err ("Solution file not found: " ++ solution_file)
  else
    match suite_name with
    | some n =>
        match lookupSuite suites n with
        | some s => .reports [(n, run_test_suite s import_ok tree?)]
        | none => .err ("Test suite not found: " ++ n)
    | none =>
        .reports (suites.map fun p => (p.1, run_test_suite p.2 import_ok tree?))

/-! ## Claim-side characterizations

Definitions below state the specification's vocabulary (top-level
declarations, functions at any depth with their nearest enclosing class) so
the analyzers can be compared against it. -/

/-- Names of the top-level class definitions of a module, in order. -/
def topLevelClassNames (tree : List PyNode) : List String :=
  tree.filterMap fun n =>
    match n with
    | .classDef c _ _ => some c
    | _ => none

/-- Names of the top-level function definitions of a module, in order. -/
def topLevelFunctionNames (tree : List PyNode) : List String :=
  tree.filterMap fun n =>
    match n with
    | .funcDef f _ _ => some f
    | _ => none

mutual

/-- Whether a subtree contains any class definition (itself included). -/
def hasClassDef : PyNode → Bool
  | .classDef _ _ _ => true
  | .funcDef _ _ body => hasClassDefList body
  | .other body => hasClassDefList body

def hasClassDefList : List PyNode → Bool
  | [] => false
  | n :: ns => hasClassDef n || hasClassDefList ns

end

/-- No class definition sits inside the body of any top-level statement, i.e.
every class of the module is top-level. -/
def nodeNestedClassFree : PyNode → Bool
  | .classDef _ _ body => !hasClassDefList body
  | .funcDef _ _ body => !hasClassDefList body
  | .other body => !hasClassDefList body

def nestedClassFree (tree : List PyNode) : Bool := tree.all nodeNestedClassFree

mutual

/-- Every function-definition name in a subtree, in depth-first pre-order. -/
def allFunctionNamesNode : PyNode → List String
  | .funcDef n _ body => n :: allFunctionNamesList body
  | .classDef _ _ body => allFunctionNamesList body
  | .other body => allFunctionNamesList body

def allFunctionNamesList : List PyNode → List String
  | [] => []
  | n :: ns => allFunctionNamesNode n ++ allFunctionNamesList ns

end

mutual

/-- Every function definition paired with its nearest enclosing class (the
class context in force where the definition occurs: set on entering a class
body, unchanged through function bodies and other statements), in depth-first
pre-order. -/
def funcsWithCtx : Option String → PyNode → List (Option String × String)
  | _, .classDef n _ body => funcsWithCtxList (some n) body
  | cc, .funcDef n _ body => (cc, n) :: funcsWithCtxList cc body
  | cc, .other body => funcsWithCtxList cc body

def funcsWithCtxList : Option String → List PyNode → List (Option String × String)
  | _, [] => []
  | cc, n :: ns => funcsWithCtx cc n ++ funcsWithCtxList cc ns

end

/-! ## Helper lemmas -/

mutual

theorem classesVisit_eq_nil : ∀ n : PyNode, hasClassDef n = false → classesVisit n = []
  | .classDef _ _ _, h => by simp [hasClassDef] at h
  | .funcDef _ _ body, h => by
      simp only [hasClassDef] at h
      simpa [classesVisit] using classesVisitList_eq_nil body h
  | .other body, h => by
      simp only [hasClassDef] at h
      simpa [classesVisit] using classesVisitList_eq_nil body h

theorem classesVisitList_eq_nil :
    ∀ l : List PyNode, hasClassDefList l = false → classesVisitList l = []
  | [], _ => rfl
  | n :: ns, h => by
      simp only [hasClassDefList, Bool.or_eq_false_iff] at h
      simp [classesVisitList, classesVisit_eq_nil n h.1, classesVisitList_eq_nil ns h.2]

end

mutual

theorem tddVisit_appends : ∀ (st : TDDFacts) (n : PyNode),
    tddVisit st n =
      ⟨st.test_functions ++ (allFunctionNamesNode n).filter isTestName,
       st.implementation_functions ++ (allFunctionNamesNode n).filter isImplName,
       st.function_order ++ allFunctionNamesNode n⟩
  | st, .funcDef n ds body => by
      rw [tddVisit, tddVisitList_appends]
      cases h1 : isTestName n <;> cases h2 : isImplName n <;>
        simp [allFunctionNamesNode, List.filter_cons, h1, h2, List.append_assoc]
  | st, .classDef n bs body => by
      rw [tddVisit, tddVisitList_appends]
      simp [allFunctionNamesNode]
  | st, .other body => by
      rw [tddVisit, tddVisitList_appends]
      simp [allFunctionNamesNode]

theorem tddVisitList_appends : ∀ (st : TDDFacts) (l : List PyNode),
    tddVisitList st l =
      ⟨st.test_functions ++ (allFunctionNamesList l).filter isTestName,
       st.implementation_functions ++ (allFunctionNamesList l).filter isImplName,
       st.function_order ++ allFunctionNamesList l⟩
  | st, [] => by simp [tddVisitList, allFunctionNamesList]
  | st, n :: ns => by
      rw [tddVisitList, tddVisitList_appends (tddVisit st n) ns, tddVisit_appends st n]
      simp [allFunctionNamesList, List.filter_append, List.append_assoc]

end

mutual

theorem methodsVisit_ctx : ∀ (c : String) (cc : Option String) (n : PyNode),
    methodsVisit (some c) cc n
      = ((funcsWithCtx cc n).filter (fun p => p.1 == some c)).map (·.2)
  | c, cc, .classDef nm bs body => by
      rw [methodsVisit, funcsWithCtx, methodsVisitList_ctx c (some nm) body]
  | c, cc, .funcDef nm ds body => by
      rw [methodsVisit, funcsWithCtx, methodsVisitList_ctx c cc body]
      by_cases h : cc = some c <;> simp [h, List.filter_cons]
  | c, cc, .other body => by
      rw [methodsVisit, funcsWithCtx, methodsVisitList_ctx c cc body]

theorem methodsVisitList_ctx : ∀ (c : String) (cc : Option String) (l : List PyNode),
    methodsVisitList (some c) cc l
      = ((funcsWithCtxList cc l).filter (fun p => p.1 == some c)).map (·.2)
  | _, _, [] => rfl
  | c, cc, n :: ns => by
      rw [methodsVisitList, funcsWithCtxList, methodsVisit_ctx c cc n,
        methodsVisitList_ctx c cc ns]
      simp [List.filter_append]

end

/-! ## Fixtures -/

/-- A suite of three cases worth 2, 3 and 5 points whose second case fails
with an assertion. -/
def threeCaseSuite : ModuleTestSuite :=
  { module_name := "demo"
    test_cases :=
      [{ name := "check_a", description := "first check", test_function := .ok,
         module := "demo", points := 2 },
       { name := "check_b", description := "second check",
         test_function := .assertErr "expected attribute not found",
         module := "demo", points := 3 },
       { name := "check_c", description := "third check", test_function := .ok,
         module := "demo", points := 5 }] }

/-- One registered suite under its registry key, shaped like the `solid-srp`
entry of `AutomatedTester._initialize_test_suites`. -/
def demoCase : TestCase :=
  { name := "test_user_validator_exists"
    description := "Test that UserValidator class exists"
    test_function := .ok
    module := "SOLID-SRP"
    points := 2 }

def demoSuite : ModuleTestSuite :=
  { module_name := "SOLID - Single Responsibility Principle"
    test_cases := [demoCase] }

def demoRegistry : List (String × ModuleTestSuite) := [("solid-srp", demoSuite)]

/-! ## Claims -/

/-- C1: for every test case (hence every predicate behaviour on the loaded
module), `run_test_case` returns PASS with the case's points and an empty
error message on a normal return, FAIL with score 0 and the assertion's
message on an assertion-style error, and ERROR with score 0 and message
`"{exception type name}: {message}"` on any other exception. -/
theorem C1_run_test_case_outcome_classification (tc : TestCase) :
    (run_test_case tc).result =
      (match tc.test_function with
       | .ok => TestResult.PASS
       | .assertErr _ => TestResult.FAIL
       | .exc _ _ => TestResult.ERROR)
    ∧ (run_test_case tc).score =
      (match tc.test_function with
       | .ok => (tc.points : ℚ)
       | .assertErr _ => 0
       | .exc _ _ => 0)
    ∧ (run_test_case tc).error_message =
      (match tc.test_function with
       | .ok => ""
       | .assertErr m => m
       | .exc ty m => ty ++ ": " ++ m) := by
  obtain ⟨n, d, tf, m, p, t, rp, rc, rm⟩ := tc
  cases tf <;> simp [run_test_case]

/-- C2: when the solution imports successfully, `run_test_suite` runs every
case in declared order, its total score is the sum of the per-case awarded
scores, and its percentage is `100 * total / max` when `max_points > 0`, else
`0`; in particular the 2/3/5-point suite whose second case fails scores 7 of
10 for 70.0%. -/
theorem C2_run_test_suite_scoring (name : String) (cases : List TestCase)
    (tree? : Option (List PyNode)) :
    (run_test_suite ⟨name, cases⟩ true tree?).results = cases.map run_test_case
    ∧ (run_test_suite ⟨name, cases⟩ true tree?).total_score =
        some ((cases.map fun c => (run_test_case c).score).sum)
    ∧ (run_test_suite ⟨name, cases⟩ true tree?).max_score =
        some (ModuleTestSuite.max_points ⟨name, cases⟩)
    ∧ (run_test_suite ⟨name, cases⟩ true tree?).percentage =
        some (if ModuleTestSuite.max_points ⟨name, cases⟩ > 0 then
                100 * ((cases.map fun c => (run_test_case c).score).sum)
                  / (ModuleTestSuite.max_points ⟨name, cases⟩ : ℚ)
              else 0)
    ∧ (run_test_suite threeCaseSuite true tree?).total_score = some 7
    ∧ threeCaseSuite.max_points = 10
    ∧ (run_test_suite threeCaseSuite true tree?).percentage = some 70 := by
  refine ⟨?_, ?_, ?_, ?_, ?_, by decide, ?_⟩
  · simp [run_test_suite]
  · simp [run_test_suite, List.map_map, Function.comp_def]
  · simp [run_test_suite]
  · simp only [run_test_suite, Bool.not_true, Bool.false_eq_true, if_false, ite_false,
      Option.some.injEq]
    rw [List.map_map]
    split <;> [skip; rfl]
    rw [div_mul_eq_mul_div, mul_comm]
    rfl
  · simp [run_test_suite, threeCaseSuite, run_test_case, ModuleTestSuite.max_points]
    norm_num
  · simp [run_test_suite, threeCaseSuite, run_test_case, ModuleTestSuite.max_points]
    norm_num

/-- C3 counterexample: a system-exiting raise during the load sequence (e.g.
`sys.exit()` in the student's top-level code raising `SystemExit`, which
derives from `BaseException` but not `Exception`) passes the loader's
`except Exception` handler and propagates to the caller instead of yielding
`None`. -/
theorem C3_counterexample_system_exiting_escape :
    import_solution (LoadEvent.raises ExcKind.systemExiting "SystemExit" "1")
        = ImportOutcome.uncaught "SystemExit" "1"
    ∧ import_solution (LoadEvent.raises ExcKind.systemExiting "SystemExit" "1")
        ≠ ImportOutcome.returnedNone := by decide

/-- C3 amended: `import_solution` never propagates any `Exception`-derived
failure of locating, loading, or executing the student's file — including the
internal spec/loader `None` checks, which raise an `ImportError` the handler
catches — returning `None` instead; only system-exiting exceptions deriving
solely from `BaseException` (`SystemExit`, `KeyboardInterrupt`) escape the
loader boundary. -/
theorem C3_amended_loader_contains_ordinary_failures (ty msg : String) :
    import_solution (LoadEvent.raises ExcKind.ordinary ty msg) = ImportOutcome.returnedNone
    ∧ import_solution LoadEvent.specNone = ImportOutcome.returnedNone
    ∧ import_solution LoadEvent.loaderNone = ImportOutcome.returnedNone
    ∧ import_solution LoadEvent.ok = ImportOutcome.loaded :=
  ⟨rfl, rfl, rfl, rfl⟩

/-- C4 counterexample: a grading invocation of `test_solution` on an existing
file with a registered suite name whose import fails yields a per-suite
report of status `"error"` that lacks the `total_score`, `max_score`,
`percentage`, `detected_patterns` and `found_classes` keys. -/
theorem C4_counterexample_error_report_missing_keys :
    test_solution "solution.py" true demoRegistry (some "solid-srp") false none
        = TSOutcome.reports [("solid-srp", run_test_suite demoSuite false none)]
    ∧ (run_test_suite demoSuite false none).status = "error"
    ∧ "total_score" ∉ (run_test_suite demoSuite false none).keys
    ∧ "max_score" ∉ (run_test_suite demoSuite false none).keys
    ∧ "percentage" ∉ (run_test_suite demoSuite false none).keys
    ∧ "detected_patterns" ∉ (run_test_suite demoSuite false none).keys
    ∧ "found_classes" ∉ (run_test_suite demoSuite false none).keys := by decide

/-- C4 amended: a suite report of status `"completed"` carries exactly the
keys `module`, `status`, `total_score`, `max_score`, `percentage`, `results`,
`detected_patterns`, `found_classes`; an import-failure report has status
`"error"` and carries only `module`, `status`, `error`, `results`. -/
theorem C4_amended_report_keys_by_status (suite : ModuleTestSuite) (import_ok : Bool)
    (tree? : Option (List PyNode)) :
    (run_test_suite suite import_ok tree?).keys =
      (if import_ok then
        ["module", "status", "total_score", "max_score", "percentage", "results",
         "detected_patterns", "found_classes"]
       else ["module", "status", "error", "results"])
    ∧ (run_test_suite suite import_ok tree?).status =
      (if import_ok then "completed" else "error") := by
  cases import_ok <;> simp [run_test_suite, SuiteReport.keys]

/-- C5 counterexample: a module whose only top-level class `A` contains a
nested class `B` has one top-level class definition, yet `find_classes`
returns two names, so it does not return exactly N names for N top-level
classes. -/
theorem C5_counterexample_nested_class_counted :
    find_classes [PyNode.classDef "A" [] [PyNode.classDef "B" [] []]] = ["A", "B"]
    ∧ topLevelClassNames [PyNode.classDef "A" [] [PyNode.classDef "B" [] []]] = ["A"]
    ∧ (find_classes [PyNode.classDef "A" [] [PyNode.classDef "B" [] []]]).length ≠
        (topLevelClassNames [PyNode.classDef "A" [] [PyNode.classDef "B" [] []]]).length := by
  decide

/-- C5 amended: `find_classes` collects the names of all class-definition
nodes, nested ones included, in depth-first encounter order; when no class
definition is nested inside another statement, it returns exactly the
top-level class names in declaration order. -/
theorem C5_amended_find_classes_top_level (tree : List PyNode)
    (h : nestedClassFree tree = true) :
    find_classes tree = topLevelClassNames tree := by
  induction tree with
  | nil => rfl
  | cons n ns ih =>
      simp only [nestedClassFree, List.all_cons, Bool.and_eq_true] at h
      have hns : classesVisitList ns = topLevelClassNames ns := by
        simpa [find_classes] using ih (by simpa [nestedClassFree] using h.2)
      cases n with
      | classDef c bs body =>
          have hb : hasClassDefList body = false := by
            simpa [nodeNestedClassFree] using h.1
          simp [find_classes, classesVisitList, classesVisit,
            classesVisitList_eq_nil body hb, topLevelClassNames, hns]
      | funcDef f ds body =>
          have hb : hasClassDefList body = false := by
            simpa [nodeNestedClassFree] using h.1
          simp [find_classes, classesVisitList, classesVisit,
            classesVisitList_eq_nil body hb, topLevelClassNames, hns]
      | other body =>
          have hb : hasClassDefList body = false := by
            simpa [nodeNestedClassFree] using h.1
          simp [find_classes, classesVisitList, classesVisit,
            classesVisitList_eq_nil body hb, topLevelClassNames, hns]

theorem C5_witness :
    nestedClassFree [PyNode.classDef "A" [] [], PyNode.funcDef "f" [] []] = true
    ∧ find_classes [PyNode.classDef "A" [] [], PyNode.funcDef "f" [] []]
        = topLevelClassNames [PyNode.classDef "A" [] [], PyNode.funcDef "f" [] []] :=
  ⟨by decide, C5_amended_find_classes_top_level _ (by decide)⟩

/-- C6: a source whose pattern-visitor facts are a single class name
`singleton` (the lowered name of a class literally called `Singleton`) and
whose method names carry none of the detection needles yields
`singleton = true` and `false` for the other six patterns. -/
theorem C6_singleton_only_detection (tree : List PyNode) (ms : List String)
    (hA hI : Bool)
    (hc : patternVisitList ⟨[], [], false, false⟩ tree = ⟨["singleton"], ms, hA, hI⟩)
    (hm : ∀ s ∈ (["_instance", "create", "make", "notify", "subscribe", "wrap",
        "execute", "build"] : List String),
      inStr s (String.intercalate " " ms) = false) :
    find_design_patterns tree = ⟨true, false, false, false, false, false, false⟩ := by
  have h1 : inStr "_instance" (String.intercalate " " ms) = false := hm _ (by simp)
  have h2 : inStr "create" (String.intercalate " " ms) = false := hm _ (by simp)
  have h3 : inStr "make" (String.intercalate " " ms) = false := hm _ (by simp)
  have h4 : inStr "notify" (String.intercalate " " ms) = false := hm _ (by simp)
  have h5 : inStr "subscribe" (String.intercalate " " ms) = false := hm _ (by simp)
  have h6 : inStr "wrap" (String.intercalate " " ms) = false := hm _ (by simp)
  have h7 : inStr "execute" (String.intercalate " " ms) = false := hm _ (by simp)
  have h8 : inStr "build" (String.intercalate " " ms) = false := hm _ (by simp)
  unfold find_design_patterns
  rw [hc]
  simp only [patternFlags, Patterns.mk.injEq]
  refine ⟨?_, ?_, ?_, ?_, ?_, ?_, ?_⟩
  · rw [show inStr "singleton" (String.intercalate " " ["singleton"]) = true from by decide]
    rfl
  · rw [show inStr "factory" (String.intercalate " " ["singleton"]) = false from by decide,
      h2, h3]
    rfl
  · rw [show inStr "strategy" (String.intercalate " " ["singleton"]) = false from by decide]
    simp
  · rw [show inStr "observer" (String.intercalate " " ["singleton"]) = false from by decide,
      h4, h5]
    rfl
  · rw [show inStr "decorator" (String.intercalate " " ["singleton"]) = false from by decide,
      h6]
    rfl
  · rw [show inStr "command" (String.intercalate " " ["singleton"]) = false from by decide]
    rfl
  · rw [show inStr "builder" (String.intercalate " " ["singleton"]) = false from by decide,
      h8]
    rfl

theorem C6_witness :
    find_design_patterns [PyNode.classDef "Singleton" [] [PyNode.other []]]
      = ⟨true, false, false, false, false, false, false⟩ :=
  C6_singleton_only_detection _ [] false false (by decide) (by decide)

/-- C7: on a parsed source, `tdd_compliant` is true exactly when at least one
test function exists and the tests-before-implementation flag holds, and that
flag defaults to true when either classified group is empty; in particular a
module containing only `def test_x(): assert True` has `has_tests = true` and
`tdd_compliant = true`. -/
theorem C7_tdd_compliant_characterization (tree : List PyNode) :
    ((check_tdd_compliance (some tree)).tdd_compliant
        = ((check_tdd_compliance (some tree)).has_tests
            && (check_tdd_compliance (some tree)).tests_before_implementation.getD true))
    ∧ ((check_tdd_compliance (some tree)).test_functions = []
          ∨ (check_tdd_compliance (some tree)).implementation_functions = []
        → (check_tdd_compliance (some tree)).tests_before_implementation = some true)
    ∧ (check_tdd_compliance (some [PyNode.funcDef "test_x" [] [PyNode.other []]])).has_tests
        = true
    ∧ (check_tdd_compliance (some [PyNode.funcDef "test_x" [] [PyNode.other []]])).tdd_compliant
        = true := by
  refine ⟨?_, ?_, by decide, by decide⟩
  · simp only [check_tdd_compliance, Option.getD_some]
    rw [Bool.and_self]
  · intro h
    simp only [check_tdd_compliance] at h ⊢
    rcases h with h | h <;> simp [h]

theorem C7_witness :
    (check_tdd_compliance (some [PyNode.classDef "A" [] []])).tests_before_implementation
      = some true :=
  (C7_tdd_compliant_characterization [PyNode.classDef "A" [] []]).2.1 (Or.inl (by decide))

/-- C8 counterexample: a module with no top-level function but a class `A`
holding a method `helper` yields `implementation_count = 1`, so the counts do
not cover only top-level function definitions. -/
theorem C8_counterexample_method_counted :
    (check_tdd_compliance
        (some [PyNode.classDef "A" [] [PyNode.funcDef "helper" [] []]])).implementation_count
      = 1
    ∧ topLevelFunctionNames [PyNode.classDef "A" [] [PyNode.funcDef "helper" [] []]] = [] := by
  decide

/-- C8 amended: `check_tdd_compliance` classifies every function definition
of the tree at any nesting depth (class methods and inner functions
included), in depth-first order: test functions are those whose name starts
with `test_` or whose lowercased name contains `test`, implementation
functions the remaining ones not starting with `_`, and the two counts are
the lengths of those lists. -/
theorem C8_amended_classification_all_depths (tree : List PyNode) :
    (check_tdd_compliance (some tree)).test_functions
        = (allFunctionNamesList tree).filter isTestName
    ∧ (check_tdd_compliance (some tree)).implementation_functions
        = (allFunctionNamesList tree).filter isImplName
    ∧ (check_tdd_compliance (some tree)).test_count
        = ((allFunctionNamesList tree).filter isTestName).length
    ∧ (check_tdd_compliance (some tree)).implementation_count
        = ((allFunctionNamesList tree).filter isImplName).length := by
  have h := tddVisitList_appends ⟨[], [], []⟩ tree
  simp only [check_tdd_compliance, h]
  simp

/-- C9 counterexample: the parse-failure result of `check_tdd_compliance`
does not carry the `tests_before_implementation` key at all, so not every
field of the result is present. -/
theorem C9_counterexample_missing_tbi_key :
    (check_tdd_compliance none).tests_before_implementation = none
    ∧ (check_tdd_compliance none).tests_before_implementation.isSome = false := by
  decide

/-- C9 amended: on a source that fails to parse, every field of the result
except the absent `tests_before_implementation` key is present and
falsy/zero/empty, with exactly one recommendation telling the student to fix
syntax errors first. -/
theorem C9_amended_parse_failure_result :
    (check_tdd_compliance none).has_tests = false
    ∧ (check_tdd_compliance none).test_count = 0
    ∧ (check_tdd_compliance none).implementation_count = 0
    ∧ (check_tdd_compliance none).tdd_compliant = false
    ∧ (check_tdd_compliance none).test_functions = []
    ∧ (check_tdd_compliance none).implementation_functions = []
    ∧ (check_tdd_compliance none).tests_before_implementation = none
    ∧ (check_tdd_compliance none).recommendations = ["Fix syntax errors in your code first"]
    ∧ (check_tdd_compliance none).recommendations.length = 1 := by
  decide

/-- C10: `find_methods` scoped to a class name `C` returns exactly the
function definitions whose nearest enclosing class is named `C` — the class
context set on entering a class body persists through nested function bodies
until another class definition is entered — so helper functions defined
inside the bodies of `C`'s methods are included, as the concrete instance
shows. -/
theorem C10_find_methods_nearest_enclosing_class (tree : List PyNode) (c : String) :
    find_methods tree (some c)
        = ((funcsWithCtxList none tree).filter (fun p => p.1 == some c)).map (·.2)
    ∧ find_methods
        [PyNode.classDef "Bar" [] [PyNode.funcDef "method" [] [PyNode.funcDef "foo" [] []]]]
        (some "Bar") = ["method", "foo"] :=
  ⟨methodsVisitList_ctx c none tree, by decide⟩

end TestRunner
